import Mathlib

/-!
Shallow embedding of the population simulator (src/simulator.rs) and of the
stabilization optimizer cost function (src/optimizer.rs) of the
life-universe-everything repository.

Modelling conventions:
* `f64` values are modelled as exact rationals (`ℚ`); the fixed table
  literals become the corresponding decimal fractions.
* `u64` counts are modelled as `ℕ`.  The one subtraction of the pipeline,
  deaths from a bucket count, is modelled explicitly by `subWrap`
  (wrap modulo 2 ^ 64 on underflow, the release-build behaviour; debug
  builds panic at exactly the same inputs).
* `f64 → u64` casts (`as Count` on a rounded value) saturate below at
  zero, modelled by `Int.toNat`.
* `HashMap<Age, Count>` is modelled as `ℕ → Option ℕ`; key presence is
  significant because the source unwraps lookups.
  `BTreeMap<Year, CohortData>` is modelled as `ℤ → Option CohortData`.
* The `u8` additions `males_per_100_females + 100` and `max_age + 1`
  performed by `PopulationSimulator::new` wrap modulo 256 in release
  builds; the first is modelled faithfully inside `male_birth_bias`, the
  second is analysed separately (the population model itself uses `ℕ`
  arithmetic for ages and is faithful for `max_age ≤ 254`).
-/

namespace LifeUniverse

abbrev Count := ℕ

/-- `HashMap<Age, Count>`: a population map for one gender. -/
abbrev GMap := ℕ → Option ℕ

/-- Lookup with default 0 (`.copied().unwrap_or_default()`); the source
also unwraps lookups directly, which is legitimate exactly on the keys
shown present by the reachability invariant below. -/
def getD (m : GMap) (a : ℕ) : ℕ := (m a).getD 0

/-- Store through a (successfully unwrapped) `get_mut`, or insert. -/
def mapSet (m : GMap) (k v : ℕ) : GMap := fun a => if a = k then some v else m a

/-- u64 subtraction: exact when no underflow, wrap modulo 2 ^ 64 otherwise. -/
def subWrap (a b : ℕ) : ℕ := if b ≤ a then a - b else a + 2 ^ 64 - b

/-- `f64::round` rounds half away from zero. -/
def rustRound (x : ℚ) : ℤ := if 0 ≤ x then round x else -round (-x)

/-- `as u64` applied to a rounded f64: saturates below at zero. -/
def castCount (z : ℤ) : ℕ := z.toNat

inductive Gender where
  | male
  | female

/-- The six run parameters (`Parameters` in src/simulator.rs). -/
structure Parameters where
  initial_population : Count
  n_years : ℕ
  max_age : ℕ
  males_per_100_females : ℕ
  target_total_fertility_rate : ℚ
  infant_mortality_rate : ℚ

/-- `CohortData { females, births }`. -/
structure CohortData where
  females : ℕ
  births : ℕ

/-- `CohortFertility`: birth-year indexed ledger. -/
abbrev Cohort := ℤ → Option CohortData

/-- The mutable simulator state: the two per-gender maps and the ledger. -/
structure SimState where
  males : GMap
  females : GMap
  cohort : Cohort

/-- `age_relative_frequency` from `PopulationSimulator::new`. -/
def age_relative_frequency (age max_age : ℕ) : ℚ :=
  if max_age < age then 0
  else if age ≤ 14 then 25 / 100 / 15
  else if age ≤ 24 then 16 / 100 / 10
  else if age ≤ 54 then 41 / 100 / 30
  else if age ≤ 64 then 9 / 100 / 10
  else 9 / 100 / 56

/-- One initial bucket: `((rel_freq * initial_population) * 0.5) as Count`. -/
def initCount (p : Parameters) (age : ℕ) : ℕ :=
  castCount ⌊age_relative_frequency age p.max_age * (p.initial_population : ℚ) * (1 / 2)⌋

/-- `PopulationSimulator::new`: identical male and female maps over the
keys `0 ..= max_age + 1`, an empty ledger. -/
def initState (p : Parameters) : SimState where
  males := fun a => if a ≤ p.max_age + 1 then some (initCount p a) else none
  females := fun a => if a ≤ p.max_age + 1 then some (initCount p a) else none
  cohort := fun _ => none

/-- `males_per_100_females / (males_per_100_females + 100)`; the addition
in the denominator is performed on `u8` in the source, hence the mod 256. -/
def male_birth_bias (p : Parameters) : ℚ :=
  (p.males_per_100_females : ℚ) / (((p.males_per_100_females + 100) % 256 : ℕ) : ℚ)

/-- The nominal age-specific fertility curve (`birth_probability_one_year_nominal`). -/
def birth_probability_one_year_nominal (age : ℕ) : ℚ :=
  if age < 15 then 0
  else if age ≤ 19 then 4 / 100
  else if age ≤ 24 then 10 / 100
  else if age ≤ 29 then 13 / 100
  else if age ≤ 34 then 12 / 100
  else if age ≤ 39 then 8 / 100
  else if age ≤ 44 then 3 / 100
  else if age ≤ 49 then 5 / 1000
  else 0

/-- `TFR_NOMINAL`: the compile-time sum of the nominal curve over all
`u8` ages `0 ..= 255`. -/
def TFR_NOMINAL : ℚ := ∑ a ∈ Finset.range 256, birth_probability_one_year_nominal a

/-- `birth_probability_one_year`. -/
def birth_probability_one_year (age : ℕ) (target_tfr : ℚ) : ℚ :=
  birth_probability_one_year_nominal age * target_tfr / TFR_NOMINAL

/-- Rounded expected births contributed by the female bucket at `age`. -/
def bucketBirths (p : Parameters) (s : SimState) (age : ℕ) : ℕ :=
  castCount (rustRound
    (birth_probability_one_year age p.target_total_fertility_rate * (getD s.females age : ℚ)))

/-- `cf.births += births` on `entry(y).or_default()`. -/
def cohortAddBirths (c : Cohort) (y : ℤ) (n : ℕ) : Cohort := fun y2 =>
  if y2 = y then
    some { females := ((c y).getD ⟨0, 0⟩).females, births := ((c y).getD ⟨0, 0⟩).births + n }
  else c y2

/-- `cf.females += females` on `entry(y).or_default()`. -/
def cohortAddFemales (c : Cohort) (y : ℤ) (n : ℕ) : Cohort := fun y2 =>
  if y2 = y then
    some { females := ((c y).getD ⟨0, 0⟩).females + n, births := ((c y).getD ⟨0, 0⟩).births }
  else c y2

/-- The per-age ledger attribution loop of `handle_births`: each bucket's
births (when positive) are added to the cohort of the mothers' own birth
year `year - age`. -/
def recBirthsAux (p : Parameters) (s : SimState) (year : ℤ) (l : List ℕ) (c : Cohort) : Cohort :=
  l.foldl
    (fun c2 a =>
      if 0 < bucketBirths p s a then cohortAddBirths c2 (year - (a : ℤ)) (bucketBirths p s a)
      else c2)
    c

/-- Ledger attribution over every bucket age. -/
def recordBirths (p : Parameters) (s : SimState) (year : ℤ) (c : Cohort) : Cohort :=
  recBirthsAux p s year (List.range (p.max_age + 2)) c

/-- Total newborns of one year: sum of the rounded per-bucket births. -/
def totalNewborns (p : Parameters) (s : SimState) : ℕ :=
  ∑ a ∈ Finset.range (p.max_age + 2), bucketBirths p s a

/-- `PopulationSimulator::handle_births`. -/
def handle_births (p : Parameters) (year : ℤ) (s : SimState) : SimState :=
  let newborns := totalNewborns p s
  let maleNew := castCount (rustRound ((newborns : ℚ) * male_birth_bias p))
  let femaleNew := subWrap newborns maleNew
  { males := mapSet s.males 0 (getD s.males 0 + maleNew)
    females := mapSet s.females 0 (getD s.females 0 + femaleNew)
    cohort := cohortAddFemales (recordBirths p s year s.cohort) year femaleNew }

/-- The male life-table entries for ages 1 and up, as integer numerators
over the common denominator 100000 (e.g. the source's `0.00039` at age 1
is `39 / 100000`). -/
def male_death_numerator (age : ℕ) : ℕ :=
  if age = 1 then 39
  else if age ≤ 4 then 20
  else if age ≤ 9 then 13
  else if age ≤ 14 then 10
  else if age ≤ 19 then 22
  else if age ≤ 24 then 74
  else if age ≤ 29 then 97
  else if age ≤ 34 then 107
  else if age ≤ 39 then 127
  else if age ≤ 44 then 174
  else if age ≤ 49 then 261
  else if age ≤ 54 then 422
  else if age ≤ 59 then 689
  else if age ≤ 64 then 1135
  else if age ≤ 69 then 1871
  else if age ≤ 74 then 3066
  else if age ≤ 79 then 5027
  else if age ≤ 84 then 8096
  else if age ≤ 89 then 13257
  else if age ≤ 94 then 20755
  else if age ≤ 99 then 31234
  else 43622

/-- The female life-table entries for ages 1 and up (numerators over
100000, e.g. the source's `0.00030` at age 1 is `30 / 100000`). -/
def female_death_numerator (age : ℕ) : ℕ :=
  if age = 1 then 30
  else if age ≤ 4 then 15
  else if age ≤ 9 then 10
  else if age ≤ 14 then 8
  else if age ≤ 19 then 18
  else if age ≤ 24 then 60
  else if age ≤ 29 then 80
  else if age ≤ 34 then 90
  else if age ≤ 39 then 110
  else if age ≤ 44 then 150
  else if age ≤ 49 then 220
  else if age ≤ 54 then 350
  else if age ≤ 59 then 570
  else if age ≤ 64 then 940
  else if age ≤ 69 then 1550
  else if age ≤ 74 then 2540
  else if age ≤ 79 then 4160
  else if age ≤ 84 then 6700
  else if age ≤ 89 then 10970
  else if age ≤ 94 then 17100
  else if age ≤ 99 then 25500
  else 36000

/-- The male arm of the life table of `death_probability_one_year` (ages
below `max_age`; age 0 is the caller-supplied infant mortality rate). -/
def male_death_table (age : ℕ) (infant_mortality_rate : ℚ) : ℚ :=
  if age = 0 then infant_mortality_rate
  else (male_death_numerator age : ℚ) / 100000

/-- The female arm of the life table of `death_probability_one_year`. -/
def female_death_table (age : ℕ) (infant_mortality_rate : ℚ) : ℚ :=
  if age = 0 then infant_mortality_rate
  else (female_death_numerator age : ℚ) / 100000

/-- `death_probability_one_year`: the fixed per-gender life table, age 0
replaced by the caller-supplied infant mortality rate, probability 1 from
`max_age` up. -/
def death_probability_one_year (age : ℕ) (g : Gender) (max_age : ℕ)
    (infant_mortality_rate : ℚ) : ℚ :=
  if max_age ≤ age then 1
  else
    match g with
    | .male => male_death_table age infant_mortality_rate
    | .female => female_death_table age infant_mortality_rate

/-- Rounded expected deaths in one bucket:
`(count * death_probability).round() as Count`. -/
def bucketDeaths (p : Parameters) (g : Gender) (age c : ℕ) : ℕ :=
  castCount (rustRound
    ((c : ℚ) * death_probability_one_year age g p.max_age p.infant_mortality_rate))

/-- `PopulationSimulator::handle_deaths`: `*count -= deaths as Count` on
every bucket of both maps (the u64 subtraction, hence `subWrap`). -/
def handle_deaths (p : Parameters) (s : SimState) : SimState :=
  { s with
    males := fun a => (s.males a).map fun c => subWrap c (bucketDeaths p .male a c)
    females := fun a => (s.females a).map fun c => subWrap c (bucketDeaths p .female a c) }

/-- One iteration of the aging loop at `age`: the bucket at `age + 1` is
overwritten by the bucket at `age` and the source bucket is zeroed. -/
def propStep (m : GMap) (a : ℕ) : GMap := mapSet (mapSet m (a + 1) (getD m a)) a 0

/-- The aging loop body `for age in (0 ..= max_age).rev()`, processed from
the top age down. -/
def propLoop (m : GMap) : ℕ → GMap
  | 0 => propStep m 0
  | n + 1 => propLoop (propStep m (n + 1)) n

/-- `PopulationSimulator::propagate_age`. -/
def propagate_age (p : Parameters) (s : SimState) : SimState :=
  { s with males := propLoop s.males p.max_age, females := propLoop s.females p.max_age }

/-- One simulated year: age propagation, births, deaths, in that order. -/
def stepYear (p : Parameters) (year : ℤ) (s : SimState) : SimState :=
  handle_deaths p (handle_births p year (propagate_age p s))

/-- State after `k` yearly steps of `Parameters::run` (step `k` uses
calendar year `k - 1`, the run starting at year 0). -/
def runState (p : Parameters) : ℕ → SimState
  | 0 => initState p
  | k + 1 => stepYear p (k : ℤ) (runState p k)

/-- `AgeGenderMap::count_gender`: sum of one map's buckets. -/
def countGender (p : Parameters) (m : GMap) : ℕ :=
  ∑ a ∈ Finset.range (p.max_age + 2), getD m a

/-- The timeline entry recorded after `k` steps (keyed by year `k`). -/
def tlEntry (p : Parameters) (k : ℕ) : ℤ × ℕ × ℕ :=
  ((k : ℤ), countGender p (runState p k).males, countGender p (runState p k).females)

/-- The timeline recorded by `run`: the entry at year `k` holds the male
and female totals after `k` steps, for `k = 0 ..= n_years`, in ascending
`BTreeMap` key order. -/
def timelineList (p : Parameters) : List (ℤ × ℕ × ℕ) :=
  (List.range (p.n_years + 1)).map (tlEntry p)

/-- `SimulationResult`. -/
structure SimulationResult where
  initial_males : GMap
  initial_females : GMap
  final_males : GMap
  final_females : GMap
  cohort_fertility : Cohort
  timeline : List (ℤ × ℕ × ℕ)

/-- `Parameters::run`: `n_years` steps, timeline of `n_years + 1` entries,
and the ledger trimmed by `retain` to years `100 ..= n_years - 100`. -/
def Parameters.run (p : Parameters) : SimulationResult :=
  { initial_males := (initState p).males
    initial_females := (initState p).females
    final_males := (runState p p.n_years).males
    final_females := (runState p p.n_years).females
    cohort_fertility := fun y =>
      if 100 ≤ y ∧ y ≤ (p.n_years : ℤ) - 100 then (runState p p.n_years).cohort y else none
    timeline := timelineList p }

/-- `f64::clamp`. -/
def clampQ (x lo hi : ℚ) : ℚ := max lo (min x hi)

/-- The parameter copy evaluated by the optimizer cost function. -/
def clampedParams (p : Parameters) (x : ℚ) : Parameters :=
  { p with target_total_fertility_rate := clampQ x 0 3 }

/-- `data.sum()` on one timeline entry. -/
def entryTotal (e : ℤ × ℕ × ℕ) : ℕ := e.2.1 + e.2.2

/-- Total population of the run of the clamped parameters after `k` steps. -/
def totalAt (q : Parameters) (k : ℕ) : ℕ :=
  countGender q (runState q k).males + countGender q (runState q k).females

/-- The timeline the cost function inspects (of the clamped parameters). -/
def costTimeline (p : Parameters) (x : ℚ) : List (ℤ × ℕ × ℕ) :=
  (Parameters.run (clampedParams p x)).timeline

/-- `first_year = timeline.first_key_value().unwrap().0`. -/
def costFirstYear (p : Parameters) (x : ℚ) : ℤ :=
  ((costTimeline p x).head?.getD (0, 0, 0)).1

/-- `(end_year, end_data)`: the first entry (in ascending year order) whose
total is at most `initial_population / 3` (u64 integer division), or else
the last entry. -/
def costEnd (p : Parameters) (x : ℚ) : ℤ × ℕ × ℕ :=
  match (costTimeline p x).find? fun e => decide (entryTotal e ≤ p.initial_population / 3) with
  | some e => e
  | none => (costTimeline p x).getLast?.getD (0, 0, 0)

/-- `halfway_year = (end_year - first_year) / 2` (i32 division). -/
def costHalfwayYear (p : Parameters) (x : ℚ) : ℤ :=
  ((costEnd p x).1 - costFirstYear p x) / 2

/-- `halfway_data = timeline[&halfway_year]` (`BTreeMap` key lookup). -/
def costHalfE (p : Parameters) (x : ℚ) : ℤ × ℕ × ℕ :=
  match (costTimeline p x).find? fun e => decide (e.1 = costHalfwayYear p x) with
  | some e => e
  | none => (0, 0, 0)

/-- `slope = (end_sum - halfway_sum) / years`. -/
def costSlope (p : Parameters) (x : ℚ) : ℚ :=
  ((entryTotal (costEnd p x) : ℚ) - (entryTotal (costHalfE p x) : ℚ)) /
    (((costEnd p x).1 - costHalfwayYear p x : ℤ) : ℚ)

/-- `<Parameters as CostFunction>::cost` from src/optimizer.rs: `slope * slope`. -/
def cost (p : Parameters) (x : ℚ) : ℚ := costSlope p x * costSlope p x

/-- `CohortFertility::avg` on the ledger's values: the mean of the
per-cohort ratios `births / females`, computed in f64 with no emptiness
check (on zero cohorts the source computes `0.0 / 0.0`, i.e. NaN; in the
`ℚ` model division by zero yields 0). -/
def avg (l : List CohortData) : ℚ :=
  (l.map fun cd => (cd.births : ℚ) / (cd.females : ℚ)).sum / (l.length : ℚ)

/-! ## Basic map lemmas -/

lemma getD_mapSet_self (m : GMap) (k v : ℕ) : getD (mapSet m k v) k = v := by
  simp [getD, mapSet]

lemma mapSet_apply_ne (m : GMap) (k v a : ℕ) (h : a ≠ k) : mapSet m k v a = m a := by
  simp [mapSet, h]

lemma getD_mapSet_ne (m : GMap) (k v a : ℕ) (h : a ≠ k) : getD (mapSet m k v) a = getD m a := by
  simp [getD, mapSet, h]

lemma subWrap_of_le {a b : ℕ} (h : b ≤ a) : subWrap a b = a - b := by
  simp [subWrap, h]

lemma subWrap_self (c : ℕ) : subWrap c c = 0 := by
  simp [subWrap]

/-! ## The aging loop -/

lemma propStep_apply_ne (m : GMap) (b a : ℕ) (h1 : a ≠ b) (h2 : a ≠ b + 1) :
    propStep m b a = m a := by
  simp [propStep, mapSet, h1, h2]

lemma propLoop_zero : ∀ (n : ℕ) (m : GMap), propLoop m n 0 = some 0 := by
  intro n
  induction n with
  | zero => intro m; simp [propLoop, propStep, mapSet]
  | succ n ih => intro m; exact ih (propStep m (n + 1))

lemma propLoop_high : ∀ (n : ℕ) (m : GMap) (a : ℕ), n + 1 < a → propLoop m n a = m a := by
  intro n
  induction n with
  | zero =>
    intro m a ha
    have h1 : a ≠ 0 := by omega
    have h2 : a ≠ 0 + 1 := by omega
    simpa [propLoop] using propStep_apply_ne m 0 a h1 h2
  | succ n ih =>
    intro m a ha
    have step : propLoop m (n + 1) a = propLoop (propStep m (n + 1)) n a := rfl
    rw [step, ih (propStep m (n + 1)) a (by omega)]
    exact propStep_apply_ne m (n + 1) a (by omega) (by omega)

lemma propLoop_getD_succ :
    ∀ (n : ℕ) (m : GMap) (a : ℕ), a ≤ n → getD (propLoop m n) (a + 1) = getD m a := by
  intro n
  induction n with
  | zero =>
    intro m a ha
    have : a = 0 := by omega
    subst this
    simp [propLoop, propStep, getD, mapSet]
  | succ n ih =>
    intro m a ha
    have step : propLoop m (n + 1) = propLoop (propStep m (n + 1)) n := rfl
    rcases Nat.lt_or_ge a (n + 1) with h | h
    · rw [step, ih (propStep m (n + 1)) a (by omega)]
      have h1 : a ≠ n + 1 := by omega
      have h2 : a ≠ n + 2 := by omega
      simp [getD, propStep_apply_ne _ _ _ h1 h2]
    · have : a = n + 1 := by omega
      subst this
      rw [step]
      have hhigh : propLoop (propStep m (n + 1)) n (n + 1 + 1) = propStep m (n + 1) (n + 1 + 1) :=
        propLoop_high n _ _ (by omega)
      rw [getD, hhigh]
      simp [propStep, mapSet, getD]

lemma propLoop_isSome :
    ∀ (n : ℕ) (m : GMap) (a : ℕ), a ≤ n + 1 → (propLoop m n a).isSome := by
  intro n
  induction n with
  | zero =>
    intro m a ha
    interval_cases a <;> simp [propLoop, propStep, mapSet]
  | succ n ih =>
    intro m a ha
    have step : propLoop m (n + 1) a = propLoop (propStep m (n + 1)) n a := rfl
    rcases Nat.lt_or_ge a (n + 2) with h | h
    · rw [step]; exact ih (propStep m (n + 1)) a (by omega)
    · have haa : a = n + 2 := by omega
      subst haa
      rw [step, propLoop_high n _ _ (by omega)]
      simp [propStep, mapSet]

/-- C2: after the age-propagation phase of a yearly step, for every age
`a ≤ max_age` and both genders, the bucket at `a + 1` holds exactly the
count the bucket at `a` held immediately before the phase, and the bucket
at age 0 holds zero.  Instantiated at `s := runState p y` this is the
aging-monotonicity statement for every simulated year `y`. -/
theorem propagate_age_shifts (p : Parameters) (s : SimState) (a : ℕ) (ha : a ≤ p.max_age) :
    getD (propagate_age p s).males (a + 1) = getD s.males a ∧
    getD (propagate_age p s).females (a + 1) = getD s.females a ∧
    getD (propagate_age p s).males 0 = 0 ∧
    getD (propagate_age p s).females 0 = 0 := by
  refine ⟨propLoop_getD_succ p.max_age s.males a ha,
          propLoop_getD_succ p.max_age s.females a ha, ?_, ?_⟩ <;>
    simp [propagate_age, getD, propLoop_zero]

/-- Witness for C2 at a concrete input. -/
theorem propagate_age_shifts_witness :
    3 ≤ (Parameters.mk 100 1 10 100 2 0).max_age ∧
    (getD (propagate_age (Parameters.mk 100 1 10 100 2 0)
        (initState (Parameters.mk 100 1 10 100 2 0))).males (3 + 1) =
      getD (initState (Parameters.mk 100 1 10 100 2 0)).males 3 ∧
    getD (propagate_age (Parameters.mk 100 1 10 100 2 0)
        (initState (Parameters.mk 100 1 10 100 2 0))).females (3 + 1) =
      getD (initState (Parameters.mk 100 1 10 100 2 0)).females 3 ∧
    getD (propagate_age (Parameters.mk 100 1 10 100 2 0)
        (initState (Parameters.mk 100 1 10 100 2 0))).males 0 = 0 ∧
    getD (propagate_age (Parameters.mk 100 1 10 100 2 0)
        (initState (Parameters.mk 100 1 10 100 2 0))).females 0 = 0) :=
  ⟨by decide, propagate_age_shifts (Parameters.mk 100 1 10 100 2 0) _ 3 (by decide)⟩

/-! ## Deaths -/

lemma death_probability_at_ceiling (a : ℕ) (g : Gender) (amax : ℕ) (imr : ℚ)
    (h : amax ≤ a) : death_probability_one_year a g amax imr = 1 := by
  simp [death_probability_one_year, h]

lemma ite_le_of_le {c : Prop} [Decidable c] {x y n : ℕ} (hx : x ≤ n) (hy : y ≤ n) :
    (if c then x else y) ≤ n := by split <;> assumption

lemma male_death_numerator_le (a : ℕ) : male_death_numerator a ≤ 100000 := by
  unfold male_death_numerator
  repeat' apply ite_le_of_le
  all_goals norm_num

lemma female_death_numerator_le (a : ℕ) : female_death_numerator a ≤ 100000 := by
  unfold female_death_numerator
  repeat' apply ite_le_of_le
  all_goals norm_num

lemma male_death_table_nonneg (a : ℕ) (imr : ℚ) (h0 : 0 ≤ imr) :
    0 ≤ male_death_table a imr := by
  unfold male_death_table
  split_ifs
  · exact h0
  · positivity

lemma female_death_table_nonneg (a : ℕ) (imr : ℚ) (h0 : 0 ≤ imr) :
    0 ≤ female_death_table a imr := by
  unfold female_death_table
  split_ifs
  · exact h0
  · positivity

lemma male_death_table_le_one (a : ℕ) (imr : ℚ) (h1 : imr ≤ 1) :
    male_death_table a imr ≤ 1 := by
  unfold male_death_table
  split_ifs
  · exact h1
  · rw [div_le_one (by norm_num : (0 : ℚ) < 100000)]
    exact_mod_cast male_death_numerator_le a

lemma female_death_table_le_one (a : ℕ) (imr : ℚ) (h1 : imr ≤ 1) :
    female_death_table a imr ≤ 1 := by
  unfold female_death_table
  split_ifs
  · exact h1
  · rw [div_le_one (by norm_num : (0 : ℚ) < 100000)]
    exact_mod_cast female_death_numerator_le a

lemma death_probability_nonneg (a : ℕ) (g : Gender) (amax : ℕ) (imr : ℚ)
    (h0 : 0 ≤ imr) : 0 ≤ death_probability_one_year a g amax imr := by
  unfold death_probability_one_year
  split_ifs
  · norm_num
  · cases g
    · exact male_death_table_nonneg a imr h0
    · exact female_death_table_nonneg a imr h0

lemma death_probability_le_one (a : ℕ) (g : Gender) (amax : ℕ) (imr : ℚ)
    (h1 : imr ≤ 1) : death_probability_one_year a g amax imr ≤ 1 := by
  unfold death_probability_one_year
  split_ifs
  · norm_num
  · cases g
    · exact male_death_table_le_one a imr h1
    · exact female_death_table_le_one a imr h1

lemma round_le_natCast (c : ℕ) (x : ℚ) (h : x ≤ (c : ℚ)) : round x ≤ (c : ℤ) := by
  rw [round_eq]
  have h2 : x + 1 / 2 ≤ (1 / 2 : ℚ) + (c : ℕ) := by linarith
  calc ⌊x + 1 / 2⌋ ≤ ⌊(1 / 2 : ℚ) + (c : ℕ)⌋ := Int.floor_le_floor h2
    _ = ⌊(1 / 2 : ℚ)⌋ + (c : ℕ) := Int.floor_add_nat (1 / 2) c
    _ = (c : ℤ) := by norm_num

lemma castRound_mul_le (c : ℕ) (q : ℚ) (h0 : 0 ≤ q) (h1 : q ≤ 1) :
    castCount (rustRound ((c : ℚ) * q)) ≤ c := by
  have hx : (0 : ℚ) ≤ (c : ℚ) * q := mul_nonneg (Nat.cast_nonneg c) h0
  have hxc : (c : ℚ) * q ≤ (c : ℚ) := mul_le_of_le_one_right (Nat.cast_nonneg c) h1
  simp only [rustRound, if_pos hx, castCount]
  rw [Int.toNat_le]
  exact round_le_natCast c _ hxc

lemma bucketDeaths_at_ceiling (p : Parameters) (g : Gender) (a c : ℕ)
    (h : p.max_age ≤ a) : bucketDeaths p g a c = c := by
  have hpos : (0 : ℚ) ≤ (c : ℚ) * 1 := by positivity
  simp [bucketDeaths, death_probability_at_ceiling _ _ _ _ h, rustRound, hpos, castCount]

/-- C3: after the death step, the count at every age strictly above
`max_age` is exactly zero (the death probability is 1 from `max_age` up,
so `round(count * 1) = count` is subtracted); this holds for an arbitrary
pre-death state, in particular after every simulated year's aging and
birth phases. -/
theorem handle_deaths_ceiling (p : Parameters) (s : SimState) (a : ℕ) (ha : p.max_age < a) :
    getD (handle_deaths p s).males a = 0 ∧ getD (handle_deaths p s).females a = 0 := by
  constructor
  · show getD (fun b => (s.males b).map fun c => subWrap c (bucketDeaths p .male b c)) a = 0
    cases h : s.males a with
    | none => simp [getD, h]
    | some c => simp [getD, h, bucketDeaths_at_ceiling p .male a c (le_of_lt ha), subWrap_self]
  · show getD (fun b => (s.females b).map fun c => subWrap c (bucketDeaths p .female b c)) a = 0
    cases h : s.females a with
    | none => simp [getD, h]
    | some c => simp [getD, h, bucketDeaths_at_ceiling p .female a c (le_of_lt ha), subWrap_self]

/-- Witness for C3 at a concrete input. -/
theorem handle_deaths_ceiling_witness :
    (Parameters.mk 100 1 10 100 2 0).max_age < 11 ∧
    (getD (handle_deaths (Parameters.mk 100 1 10 100 2 0)
        (initState (Parameters.mk 100 1 10 100 2 0))).males 11 = 0 ∧
    getD (handle_deaths (Parameters.mk 100 1 10 100 2 0)
        (initState (Parameters.mk 100 1 10 100 2 0))).females 11 = 0) :=
  ⟨by decide, handle_deaths_ceiling (Parameters.mk 100 1 10 100 2 0) _ 11 (by decide)⟩

/-- C1 (amended): when every death probability is at most 1 — the table
entries all are, so the only constraint is `0 ≤ infant_mortality_rate ≤ 1`
— the rounded expected deaths `round(count * p)` never exceed the bucket
count, hence the u64 subtraction of `handle_deaths` never underflows (and
equals the exact, clamping-free difference).  The source performs no
clamping; see the counterexample for what happens outside this range. -/
theorem handle_deaths_no_underflow (p : Parameters) (s : SimState) (a : ℕ)
    (h0 : 0 ≤ p.infant_mortality_rate) (h1 : p.infant_mortality_rate ≤ 1) :
    (∀ c, s.males a = some c →
      bucketDeaths p .male a c ≤ c ∧
      (handle_deaths p s).males a = some (c - bucketDeaths p .male a c)) ∧
    (∀ c, s.females a = some c →
      bucketDeaths p .female a c ≤ c ∧
      (handle_deaths p s).females a = some (c - bucketDeaths p .female a c)) := by
  constructor
  · intro c hc
    have hd : bucketDeaths p .male a c ≤ c :=
      castRound_mul_le c _ (death_probability_nonneg a .male p.max_age _ h0)
        (death_probability_le_one a .male p.max_age _ h1)
    refine ⟨hd, ?_⟩
    show ((s.males a).map fun c => subWrap c (bucketDeaths p .male a c)) = _
    rw [hc, Option.map_some', subWrap_of_le hd]
  · intro c hc
    have hd : bucketDeaths p .female a c ≤ c :=
      castRound_mul_le c _ (death_probability_nonneg a .female p.max_age _ h0)
        (death_probability_le_one a .female p.max_age _ h1)
    refine ⟨hd, ?_⟩
    show ((s.females a).map fun c => subWrap c (bucketDeaths p .female a c)) = _
    rw [hc, Option.map_some', subWrap_of_le hd]

/-- Witness for the amended C1 at a concrete input. -/
theorem handle_deaths_no_underflow_witness :
    (0 ≤ (Parameters.mk 100 1 10 100 2 0).infant_mortality_rate ∧
      (Parameters.mk 100 1 10 100 2 0).infant_mortality_rate ≤ 1) ∧
    ((∀ c, (initState (Parameters.mk 100 1 10 100 2 0)).males 0 = some c →
      bucketDeaths (Parameters.mk 100 1 10 100 2 0) .male 0 c ≤ c ∧
      (handle_deaths (Parameters.mk 100 1 10 100 2 0)
        (initState (Parameters.mk 100 1 10 100 2 0))).males 0 =
        some (c - bucketDeaths (Parameters.mk 100 1 10 100 2 0) .male 0 c)) ∧
    (∀ c, (initState (Parameters.mk 100 1 10 100 2 0)).females 0 = some c →
      bucketDeaths (Parameters.mk 100 1 10 100 2 0) .female 0 c ≤ c ∧
      (handle_deaths (Parameters.mk 100 1 10 100 2 0)
        (initState (Parameters.mk 100 1 10 100 2 0))).females 0 =
        some (c - bucketDeaths (Parameters.mk 100 1 10 100 2 0) .female 0 c))) :=
  ⟨⟨by norm_num, by norm_num⟩,
    handle_deaths_no_underflow (Parameters.mk 100 1 10 100 2 0) _ 0 (by norm_num) (by norm_num)⟩

/-- The parameter set of the C1 counterexample: `infant_mortality_rate = 2`
(an arbitrary `Parameters` value, as quantified by the claim). -/
def cexParams : Parameters := ⟨10000, 1, 16, 100, 3, 2⟩

/-- The reachable state right before the first death step of
`cexParams.run()`: initialization, age propagation, births of year 0. -/
def cexState : SimState :=
  handle_births cexParams 0 (propagate_age cexParams (initState cexParams))

set_option maxRecDepth 100000 in
/-- C1 counterexample: at `cexState` (reachable) the age-0 female bucket
holds 6 women, the rounded expected deaths are `round(6 * 2) = 12 > 6`,
and the death step does not clamp the count to zero: the u64 subtraction
underflows and wraps (the model yields `2 ^ 64 - 6`; a debug build
panics), refuting the claim as stated. -/
theorem handle_deaths_underflow_cex :
    getD cexState.females 0 < bucketDeaths cexParams Gender.female 0 (getD cexState.females 0) ∧
    getD (handle_deaths cexParams cexState).females 0 ≠ 0 := by
  with_unfolding_all decide

/-! ## Births: the rescaled fertility curve (C5) -/

set_option maxRecDepth 100000 in
lemma tfr_nominal_eq : TFR_NOMINAL = 101 / 40 := by
  with_unfolding_all decide

/-- C5: for every age and every target TFR, the per-woman annual birth
probability is the nominal curve value at that age divided by the sum of
the nominal curve over all (u8) ages, times the target TFR; consequently
the probabilities sum to the target TFR over all ages. -/
theorem birth_probability_rescaled (a : ℕ) (t : ℚ) :
    birth_probability_one_year a t = birth_probability_one_year_nominal a / TFR_NOMINAL * t ∧
    ∑ b ∈ Finset.range 256, birth_probability_one_year b t = t := by
  constructor
  · unfold birth_probability_one_year
    rw [mul_div_right_comm]
  · unfold birth_probability_one_year
    rw [← Finset.sum_div, ← Finset.sum_mul]
    rw [show (∑ b ∈ Finset.range 256, birth_probability_one_year_nominal b) = TFR_NOMINAL
      from rfl]
    rw [tfr_nominal_eq]
    norm_num

/-! ## Births: the newborn split and the cohort ledger (C4) -/

lemma bucketBirths_age_zero (p : Parameters) (s : SimState) : bucketBirths p s 0 = 0 := by
  simp [bucketBirths, birth_probability_one_year, birth_probability_one_year_nominal,
    rustRound, castCount]

lemma recBirthsAux_apply_ne (p : Parameters) (s : SimState) (year : ℤ) :
    ∀ (l : List ℕ) (c : Cohort) (y : ℤ),
      (∀ a ∈ l, 0 < bucketBirths p s a → y ≠ year - (a : ℤ)) →
      recBirthsAux p s year l c y = c y := by
  intro l
  induction l with
  | nil => intro c y h; rfl
  | cons a l ih =>
    intro c y h
    have step : recBirthsAux p s year (a :: l) c =
        recBirthsAux p s year l
          (if 0 < bucketBirths p s a then cohortAddBirths c (year - (a : ℤ)) (bucketBirths p s a)
           else c) := rfl
    rw [step, ih _ y fun b hb => h b (List.mem_cons_of_mem a hb)]
    by_cases hb : 0 < bucketBirths p s a
    · simp [hb, cohortAddBirths, h a (List.mem_cons_self a l) hb]
    · simp [hb]

lemma propagate_age_cohort (p : Parameters) (s : SimState) :
    (propagate_age p s).cohort = s.cohort := rfl

lemma handle_deaths_cohort (p : Parameters) (s : SimState) :
    (handle_deaths p s).cohort = s.cohort := rfl

/-- In `runState p k`, every ledger key is a year strictly below `k`. -/
lemma runState_cohort_none (p : Parameters) :
    ∀ (k : ℕ) (y : ℤ), (k : ℤ) ≤ y → (runState p k).cohort y = none := by
  intro k
  induction k with
  | zero => intro y hy; rfl
  | succ k ih =>
    intro y hy
    have hy2 : (k : ℤ) + 1 ≤ y := by push_cast at hy; omega
    show (handle_deaths p (handle_births p (k : ℤ) (propagate_age p (runState p k)))).cohort y
        = none
    rw [handle_deaths_cohort]
    show cohortAddFemales
      (recordBirths p (propagate_age p (runState p k)) (k : ℤ)
        (propagate_age p (runState p k)).cohort) (k : ℤ) _ y = none
    have hne : y ≠ (k : ℤ) := by omega
    rw [show ∀ (c : Cohort) (n : ℕ), cohortAddFemales c (k : ℤ) n y = c y from
      fun c n => by simp [cohortAddFemales, hne]]
    rw [recordBirths, recBirthsAux_apply_ne p _ (k : ℤ) _ _ y ?_, propagate_age_cohort]
    · exact ih y (by omega)
    · intro a _ _
      have : (0 : ℤ) ≤ (a : ℤ) := Int.natCast_nonneg a
      omega

/-- C4: in every birth step of a run (year `k`), with a u8-valid sex
ratio, the newborn total `N` is split as `M = round(N * maleBirthBias)`
males and `N - M` females (the female share absorbing the rounding
residual, which never underflows because the bias is at most 1); the male
and female shares are added to the respective age-0 buckets, and the
female share is recorded as the `females` field of the cohort keyed by
the current year (whose ledger entry is fresh: its `births` field is 0). -/
theorem handle_births_split (p : Parameters) (k : ℕ)
    (hm : p.males_per_100_females ≤ 155) (_hk : k < p.n_years) :
    castCount (rustRound ((totalNewborns p (propagate_age p (runState p k)) : ℚ) *
        male_birth_bias p)) ≤ totalNewborns p (propagate_age p (runState p k)) ∧
    getD (handle_births p (k : ℤ) (propagate_age p (runState p k))).males 0 =
      getD (propagate_age p (runState p k)).males 0 +
        castCount (rustRound ((totalNewborns p (propagate_age p (runState p k)) : ℚ) *
          male_birth_bias p)) ∧
    getD (handle_births p (k : ℤ) (propagate_age p (runState p k))).females 0 =
      getD (propagate_age p (runState p k)).females 0 +
        (totalNewborns p (propagate_age p (runState p k)) -
          castCount (rustRound ((totalNewborns p (propagate_age p (runState p k)) : ℚ) *
            male_birth_bias p))) ∧
    (handle_births p (k : ℤ) (propagate_age p (runState p k))).cohort (k : ℤ) =
      some ⟨totalNewborns p (propagate_age p (runState p k)) -
        castCount (rustRound ((totalNewborns p (propagate_age p (runState p k)) : ℚ) *
          male_birth_bias p)), 0⟩ := by
  set A := propagate_age p (runState p k) with hA
  set N := totalNewborns p A with hN
  set M := castCount (rustRound ((N : ℚ) * male_birth_bias p)) with hM
  have hbias : male_birth_bias p =
      (p.males_per_100_females : ℚ) / ((p.males_per_100_females : ℚ) + 100) := by
    unfold male_birth_bias
    rw [Nat.mod_eq_of_lt (by omega)]
    push_cast
    rfl
  have hb0 : 0 ≤ male_birth_bias p := by
    rw [hbias]
    positivity
  have hb1 : male_birth_bias p ≤ 1 := by
    rw [hbias, div_le_one (by positivity)]
    linarith [Nat.cast_nonneg (α := ℚ) p.males_per_100_females]
  have hMN : M ≤ N := castRound_mul_le N _ hb0 hb1
  have hsub : subWrap N M = N - M := subWrap_of_le hMN
  refine ⟨hMN, ?_, ?_, ?_⟩
  · exact getD_mapSet_self A.males 0 _
  · calc getD (handle_births p (k : ℤ) A).females 0
        = getD A.females 0 + subWrap N M := getD_mapSet_self A.females 0 _
      _ = getD A.females 0 + (N - M) := by rw [hsub]
  · have hledger : recordBirths p A (k : ℤ) A.cohort (k : ℤ) = A.cohort (k : ℤ) := by
      apply recBirthsAux_apply_ne
      intro a _ hpos heq
      have ha0 : a ≠ 0 := by
        intro h0
        rw [h0, bucketBirths_age_zero] at hpos
        exact absurd hpos (lt_irrefl 0)
      have : (0 : ℤ) < (a : ℤ) := by exact_mod_cast Nat.pos_of_ne_zero ha0
      omega
    have hnone : A.cohort (k : ℤ) = none := by
      rw [hA, propagate_age_cohort]
      exact runState_cohort_none p k k le_rfl
    show cohortAddFemales (recordBirths p A (k : ℤ) A.cohort) (k : ℤ) (subWrap N M) (k : ℤ) =
      some ⟨N - M, 0⟩
    simp [cohortAddFemales, hledger, hnone, hsub]

/-- Witness for C4 at a concrete input. -/
theorem handle_births_split_witness :
    (Parameters.mk 10000 1 16 100 3 0).males_per_100_females ≤ 155 ∧ 0 < (Parameters.mk 10000 1 16 100 3 0).n_years ∧
    (castCount (rustRound ((totalNewborns (Parameters.mk 10000 1 16 100 3 0)
        (propagate_age (Parameters.mk 10000 1 16 100 3 0)
          (runState (Parameters.mk 10000 1 16 100 3 0) 0)) : ℚ) *
        male_birth_bias (Parameters.mk 10000 1 16 100 3 0))) ≤
      totalNewborns (Parameters.mk 10000 1 16 100 3 0)
        (propagate_age (Parameters.mk 10000 1 16 100 3 0)
          (runState (Parameters.mk 10000 1 16 100 3 0) 0)) ∧
    getD (handle_births (Parameters.mk 10000 1 16 100 3 0) ((0 : ℕ) : ℤ)
        (propagate_age (Parameters.mk 10000 1 16 100 3 0)
          (runState (Parameters.mk 10000 1 16 100 3 0) 0))).males 0 =
      getD (propagate_age (Parameters.mk 10000 1 16 100 3 0)
          (runState (Parameters.mk 10000 1 16 100 3 0) 0)).males 0 +
        castCount (rustRound ((totalNewborns (Parameters.mk 10000 1 16 100 3 0)
          (propagate_age (Parameters.mk 10000 1 16 100 3 0)
            (runState (Parameters.mk 10000 1 16 100 3 0) 0)) : ℚ) *
          male_birth_bias (Parameters.mk 10000 1 16 100 3 0))) ∧
    getD (handle_births (Parameters.mk 10000 1 16 100 3 0) ((0 : ℕ) : ℤ)
        (propagate_age (Parameters.mk 10000 1 16 100 3 0)
          (runState (Parameters.mk 10000 1 16 100 3 0) 0))).females 0 =
      getD (propagate_age (Parameters.mk 10000 1 16 100 3 0)
          (runState (Parameters.mk 10000 1 16 100 3 0) 0)).females 0 +
        (totalNewborns (Parameters.mk 10000 1 16 100 3 0)
          (propagate_age (Parameters.mk 10000 1 16 100 3 0)
            (runState (Parameters.mk 10000 1 16 100 3 0) 0)) -
          castCount (rustRound ((totalNewborns (Parameters.mk 10000 1 16 100 3 0)
            (propagate_age (Parameters.mk 10000 1 16 100 3 0)
              (runState (Parameters.mk 10000 1 16 100 3 0) 0)) : ℚ) *
            male_birth_bias (Parameters.mk 10000 1 16 100 3 0)))) ∧
    (handle_births (Parameters.mk 10000 1 16 100 3 0) ((0 : ℕ) : ℤ)
        (propagate_age (Parameters.mk 10000 1 16 100 3 0)
          (runState (Parameters.mk 10000 1 16 100 3 0) 0))).cohort ((0 : ℕ) : ℤ) =
      some ⟨totalNewborns (Parameters.mk 10000 1 16 100 3 0)
          (propagate_age (Parameters.mk 10000 1 16 100 3 0)
            (runState (Parameters.mk 10000 1 16 100 3 0) 0)) -
        castCount (rustRound ((totalNewborns (Parameters.mk 10000 1 16 100 3 0)
          (propagate_age (Parameters.mk 10000 1 16 100 3 0)
            (runState (Parameters.mk 10000 1 16 100 3 0) 0)) : ℚ) *
          male_birth_bias (Parameters.mk 10000 1 16 100 3 0))), 0⟩) :=
  ⟨by decide, by decide, handle_births_split (Parameters.mk 10000 1 16 100 3 0) 0
    (by decide) (by decide)⟩

/-! ## The trimmed cohort ledger (C6) -/

/-- C6: the ledger returned by `run` holds exactly the entries of the
ledger accumulated during the run whose birth-year `y` satisfies
`100 ≤ y ≤ n_years - 100` (relative to year 0); in particular for
`n_years = 50` the window `[100, -50]` is empty and so is the returned
ledger. -/
theorem run_trims_cohort_fertility (p : Parameters) (y : ℤ) :
    (Parameters.run p).cohort_fertility y =
      (if 100 ≤ y ∧ y ≤ (p.n_years : ℤ) - 100 then (runState p p.n_years).cohort y else none) ∧
    (p.n_years = 50 → (Parameters.run p).cohort_fertility y = none) := by
  constructor
  · rfl
  · intro h50
    have hcond : ¬(100 ≤ y ∧ y ≤ (p.n_years : ℤ) - 100) := by
      rw [h50]
      rintro ⟨h1, h2⟩
      norm_num at h2
      omega
    show (if 100 ≤ y ∧ y ≤ (p.n_years : ℤ) - 100 then (runState p p.n_years).cohort y else none)
      = none
    rw [if_neg hcond]

/-- Witness for C6 (the inner implication) at a concrete input. -/
theorem run_trims_cohort_fertility_witness :
    (Parameters.run (Parameters.mk 100 50 10 100 2 0)).cohort_fertility 100 = none :=
  (run_trims_cohort_fertility (Parameters.mk 100 50 10 100 2 0) 100).2 rfl

/-! ## avg on an empty ledger (C8) -/

/-- C8 (evaluation of the source behaviour): `avg` over zero cohorts
divides the zero sum by the zero count — `0.0 / 0.0`, a NaN in the
source's f64 (0 in the `ℚ` model) — and signals no error of any kind:
there is no `NoDataError` in the code, its result type is a plain number. -/
theorem avg_empty_divides_by_zero :
    avg ([] : List CohortData) = (0 : ℚ) / (0 : ℚ) ∧ ([] : List CohortData).length = 0 := by
  constructor
  · simp [avg]
  · rfl

/-! ## The u8 additions of the simulator constructor (C10) -/

/-- C10: `PopulationSimulator::new` (hence `run()`) performs the `u8`
additions `males_per_100_females + 100` and `max_age + 1`.  For
`males_per_100_females ≤ 155` and `max_age ≤ 254` neither exceeds the u8
maximum 255 and the male birth bias is exactly
`males_per_100_females / (males_per_100_females + 100)`; for
`males_per_100_females ≥ 156` or `max_age = 255` one of the two
additions overflows u8. -/
theorem u8_additions_boundary (p : Parameters)
    (hm : p.males_per_100_females ≤ 255) (ha : p.max_age ≤ 255) :
    ((p.males_per_100_females ≤ 155 ∧ p.max_age ≤ 254) →
      p.males_per_100_females + 100 ≤ 255 ∧ p.max_age + 1 ≤ 255 ∧
      male_birth_bias p =
        (p.males_per_100_females : ℚ) / ((p.males_per_100_females : ℚ) + 100)) ∧
    ((156 ≤ p.males_per_100_females ∨ p.max_age = 255) →
      255 < p.males_per_100_females + 100 ∨ 255 < p.max_age + 1) := by
  constructor
  · rintro ⟨h1, h2⟩
    refine ⟨by omega, by omega, ?_⟩
    unfold male_birth_bias
    rw [Nat.mod_eq_of_lt (by omega)]
    push_cast
    rfl
  · intro h
    omega

/-- Witness for C10 at a concrete input. -/
theorem u8_additions_boundary_witness :
    ((Parameters.mk 0 0 120 105 2 0).males_per_100_females ≤ 255 ∧
      (Parameters.mk 0 0 120 105 2 0).max_age ≤ 255) ∧
    ((((Parameters.mk 0 0 120 105 2 0).males_per_100_females ≤ 155 ∧
        (Parameters.mk 0 0 120 105 2 0).max_age ≤ 254) →
      (Parameters.mk 0 0 120 105 2 0).males_per_100_females + 100 ≤ 255 ∧
        (Parameters.mk 0 0 120 105 2 0).max_age + 1 ≤ 255 ∧
        male_birth_bias (Parameters.mk 0 0 120 105 2 0) =
          ((Parameters.mk 0 0 120 105 2 0).males_per_100_females : ℚ) /
            (((Parameters.mk 0 0 120 105 2 0).males_per_100_females : ℚ) + 100)) ∧
    ((156 ≤ (Parameters.mk 0 0 120 105 2 0).males_per_100_females ∨
        (Parameters.mk 0 0 120 105 2 0).max_age = 255) →
      255 < (Parameters.mk 0 0 120 105 2 0).males_per_100_females + 100 ∨
        255 < (Parameters.mk 0 0 120 105 2 0).max_age + 1)) :=
  ⟨⟨by decide, by decide⟩,
    u8_additions_boundary (Parameters.mk 0 0 120 105 2 0) (by decide) (by decide)⟩

/-! ## Reachable states and the key-set invariant (C9) -/

/-- One of the three state transformers of the simulator. -/
inductive SimOp where
  | propagate
  | births (year : ℤ)
  | deaths

def applyOp (p : Parameters) (s : SimState) : SimOp → SimState
  | .propagate => propagate_age p s
  | .births y => handle_births p y s
  | .deaths => handle_deaths p s

/-- A state reached from `s` by a sequence of simulator operations. -/
def applyOps (p : Parameters) (l : List SimOp) (s : SimState) : SimState :=
  l.foldl (applyOp p) s

/-- Both gender maps contain exactly the keys `0 ..= max_age + 1`. -/
def KeysExact (p : Parameters) (s : SimState) : Prop :=
  ∀ a : ℕ, ((s.males a).isSome ↔ a ≤ p.max_age + 1) ∧
    ((s.females a).isSome ↔ a ≤ p.max_age + 1)

lemma keysExact_init (p : Parameters) : KeysExact p (initState p) := by
  intro a
  constructor <;> · by_cases h : a ≤ p.max_age + 1 <;> simp [initState, h]

lemma propLoop_isSome_iff (n : ℕ) (m : GMap) (hm : ∀ a, (m a).isSome ↔ a ≤ n + 1) (a : ℕ) :
    (propLoop m n a).isSome ↔ a ≤ n + 1 := by
  by_cases h : a ≤ n + 1
  · simp [h, propLoop_isSome n m a h]
  · rw [propLoop_high n m a (by omega)]
    simp [hm a, h]

lemma keysExact_propagate (p : Parameters) (s : SimState) (h : KeysExact p s) :
    KeysExact p (propagate_age p s) := by
  intro a
  exact ⟨propLoop_isSome_iff p.max_age s.males (fun b => (h b).1) a,
    propLoop_isSome_iff p.max_age s.females (fun b => (h b).2) a⟩

lemma keysExact_births (p : Parameters) (y : ℤ) (s : SimState) (h : KeysExact p s) :
    KeysExact p (handle_births p y s) := by
  intro a
  by_cases ha : a = 0
  · subst ha
    constructor <;> simp [handle_births, mapSet]
  · have h1 : (handle_births p y s).males a = s.males a := mapSet_apply_ne _ _ _ _ ha
    have h2 : (handle_births p y s).females a = s.females a := mapSet_apply_ne _ _ _ _ ha
    rw [h1, h2]
    exact h a

lemma keysExact_deaths (p : Parameters) (s : SimState) (h : KeysExact p s) :
    KeysExact p (handle_deaths p s) := by
  intro a
  have h1 : (handle_deaths p s).males a =
      (s.males a).map fun c => subWrap c (bucketDeaths p .male a c) := rfl
  have h2 : (handle_deaths p s).females a =
      (s.females a).map fun c => subWrap c (bucketDeaths p .female a c) := rfl
  rw [h1, h2]
  simpa using h a

lemma keysExact_applyOps (p : Parameters) :
    ∀ (l : List SimOp) (s : SimState), KeysExact p s → KeysExact p (applyOps p l s) := by
  intro l
  induction l with
  | nil => intro s hs; exact hs
  | cons op l ih =>
    intro s hs
    show KeysExact p (applyOps p l (applyOp p s op))
    apply ih
    cases op with
    | propagate => exact keysExact_propagate p s hs
    | births y => exact keysExact_births p y s hs
    | deaths => exact keysExact_deaths p s hs

/-- C9: in every state reachable from initialization by any sequence of
`propagate_age`, `handle_births` and `handle_deaths`, both gender maps
contain exactly the keys `0 ..= max_age + 1`; hence the keys the source
unwraps — `Age(0)` in `handle_births` and the pair `Age(age), Age(age+1)`
for `age ≤ max_age` in `propagate_age` — are always present.  (The
hypothesis `max_age ≤ 254` marks where the model is faithful: at
`max_age = 255` the source's own u8 addition `max_age + 1` overflows
before any map is built; see C10.) -/
theorem reachable_keys_exact (p : Parameters) (l : List SimOp) (hma : p.max_age ≤ 254) :
    KeysExact p (applyOps p l (initState p)) ∧
    (∀ a, a ≤ p.max_age →
      ((applyOps p l (initState p)).males a).isSome ∧
      ((applyOps p l (initState p)).males (a + 1)).isSome ∧
      ((applyOps p l (initState p)).females a).isSome ∧
      ((applyOps p l (initState p)).females (a + 1)).isSome) ∧
    ((applyOps p l (initState p)).males 0).isSome ∧
    ((applyOps p l (initState p)).females 0).isSome := by
  have hK : KeysExact p (applyOps p l (initState p)) :=
    keysExact_applyOps p l (initState p) (keysExact_init p)
  refine ⟨hK, ?_, ?_, ?_⟩
  · intro a ha
    exact ⟨(hK a).1.mpr (by omega), (hK (a + 1)).1.mpr (by omega),
      (hK a).2.mpr (by omega), (hK (a + 1)).2.mpr (by omega)⟩
  · exact (hK 0).1.mpr (by omega)
  · exact (hK 0).2.mpr (by omega)

/-- Witness for C9 at a concrete input. -/
theorem reachable_keys_exact_witness :
    (Parameters.mk 100 1 10 100 2 0).max_age ≤ 254 ∧
    (KeysExact (Parameters.mk 100 1 10 100 2 0)
      (applyOps (Parameters.mk 100 1 10 100 2 0)
        [SimOp.propagate, SimOp.births 0, SimOp.deaths]
        (initState (Parameters.mk 100 1 10 100 2 0))) ∧
    (∀ a, a ≤ (Parameters.mk 100 1 10 100 2 0).max_age →
      ((applyOps (Parameters.mk 100 1 10 100 2 0)
        [SimOp.propagate, SimOp.births 0, SimOp.deaths]
        (initState (Parameters.mk 100 1 10 100 2 0))).males a).isSome ∧
      ((applyOps (Parameters.mk 100 1 10 100 2 0)
        [SimOp.propagate, SimOp.births 0, SimOp.deaths]
        (initState (Parameters.mk 100 1 10 100 2 0))).males (a + 1)).isSome ∧
      ((applyOps (Parameters.mk 100 1 10 100 2 0)
        [SimOp.propagate, SimOp.births 0, SimOp.deaths]
        (initState (Parameters.mk 100 1 10 100 2 0))).females a).isSome ∧
      ((applyOps (Parameters.mk 100 1 10 100 2 0)
        [SimOp.propagate, SimOp.births 0, SimOp.deaths]
        (initState (Parameters.mk 100 1 10 100 2 0))).females (a + 1)).isSome) ∧
    ((applyOps (Parameters.mk 100 1 10 100 2 0)
      [SimOp.propagate, SimOp.births 0, SimOp.deaths]
      (initState (Parameters.mk 100 1 10 100 2 0))).males 0).isSome ∧
    ((applyOps (Parameters.mk 100 1 10 100 2 0)
      [SimOp.propagate, SimOp.births 0, SimOp.deaths]
      (initState (Parameters.mk 100 1 10 100 2 0))).females 0).isSome) :=
  ⟨by decide, reachable_keys_exact (Parameters.mk 100 1 10 100 2 0)
    [SimOp.propagate, SimOp.births 0, SimOp.deaths] (by decide)⟩

/-! ## The optimizer cost function (C7) -/

lemma head?_map_range {α : Type} (f : ℕ → α) (n : ℕ) :
    ((List.range (n + 1)).map f).head? = some (f 0) := by
  rw [List.range_succ_eq_map]
  rfl

lemma getLast?_map_range {α : Type} (f : ℕ → α) (n : ℕ) :
    ((List.range (n + 1)).map f).getLast? = some (f n) := by
  rw [List.range_succ, List.map_append]
  exact List.getLast?_concat _

lemma find?_map_range_none {α : Type} :
    ∀ (n : ℕ) (f : ℕ → α) (pr : α → Bool), (∀ k < n, pr (f k) = false) →
      ((List.range n).map f).find? pr = none := by
  intro n
  induction n with
  | zero => intro f pr _; rfl
  | succ n ih =>
    intro f pr h
    rw [List.range_succ_eq_map, List.map_cons, List.map_map]
    rw [List.find?_cons_of_neg _ (by simp [h 0 (by omega)])]
    exact ih (f ∘ Nat.succ) pr fun k hk => h (k + 1) (by omega)

lemma find?_map_range_least {α : Type} :
    ∀ (n : ℕ) (f : ℕ → α) (pr : α → Bool) (k : ℕ), k < n → pr (f k) = true →
      (∀ j < k, pr (f j) = false) → ((List.range n).map f).find? pr = some (f k) := by
  intro n
  induction n with
  | zero => intro f pr k hk _ _; exact absurd hk (Nat.not_lt_zero k)
  | succ n ih =>
    intro f pr k hk hpk hmin
    rw [List.range_succ_eq_map, List.map_cons, List.map_map]
    cases k with
    | zero => exact List.find?_cons_of_pos _ hpk
    | succ k =>
      rw [List.find?_cons_of_neg _ (by simp [hmin 0 (by omega)])]
      exact ih (f ∘ Nat.succ) pr k (by omega) hpk fun j hj => hmin (j + 1) (by omega)

lemma costFirstYear_eq (p : Parameters) (x : ℚ) : costFirstYear p x = 0 := by
  unfold costFirstYear costTimeline
  rw [show (Parameters.run (clampedParams p x)).timeline = timelineList (clampedParams p x)
    from rfl]
  unfold timelineList
  rw [head?_map_range]
  rfl

lemma costEnd_eq_of_exists (p : Parameters) (x : ℚ)
    (h : ∃ k, k ≤ p.n_years ∧ totalAt (clampedParams p x) k ≤ p.initial_population / 3) :
    costEnd p x = tlEntry (clampedParams p x) (Nat.find h) := by
  have hfind : (timelineList (clampedParams p x)).find?
      (fun e => decide (entryTotal e ≤ p.initial_population / 3)) =
      some (tlEntry (clampedParams p x) (Nat.find h)) := by
    unfold timelineList
    have hq : (clampedParams p x).n_years = p.n_years := rfl
    apply find?_map_range_least
    · have := (Nat.find_spec h).1
      omega
    · exact decide_eq_true (Nat.find_spec h).2
    · intro j hj
      apply decide_eq_false
      intro hT
      have hjn : j ≤ p.n_years := by
        have := (Nat.find_spec h).1
        omega
      exact Nat.find_min h hj ⟨hjn, hT⟩
  unfold costEnd costTimeline
  rw [show (Parameters.run (clampedParams p x)).timeline = timelineList (clampedParams p x)
    from rfl, hfind]

lemma costEnd_eq_of_none (p : Parameters) (x : ℚ)
    (h : ∀ k ≤ p.n_years, ¬ totalAt (clampedParams p x) k ≤ p.initial_population / 3) :
    costEnd p x = tlEntry (clampedParams p x) p.n_years := by
  have hfind : (timelineList (clampedParams p x)).find?
      (fun e => decide (entryTotal e ≤ p.initial_population / 3)) = none := by
    unfold timelineList
    have hq : (clampedParams p x).n_years = p.n_years := rfl
    apply find?_map_range_none
    intro k hk
    exact decide_eq_false (h k (by omega))
  unfold costEnd costTimeline
  rw [show (Parameters.run (clampedParams p x)).timeline = timelineList (clampedParams p x)
    from rfl, hfind]
  show (timelineList (clampedParams p x)).getLast?.getD (0, 0, 0) = _
  unfold timelineList
  rw [getLast?_map_range]
  rfl

lemma cost_eq_of_end (p : Parameters) (x : ℚ) (e : ℕ) (he : e ≤ p.n_years)
    (hend : costEnd p x = tlEntry (clampedParams p x) e) :
    cost p x =
      (((totalAt (clampedParams p x) e : ℚ) - (totalAt (clampedParams p x) (e / 2) : ℚ)) /
          ((e : ℚ) - ((e / 2 : ℕ) : ℚ))) *
        (((totalAt (clampedParams p x) e : ℚ) - (totalAt (clampedParams p x) (e / 2) : ℚ)) /
          ((e : ℚ) - ((e / 2 : ℕ) : ℚ))) := by
  have hhw : costHalfwayYear p x = ((e / 2 : ℕ) : ℤ) := by
    unfold costHalfwayYear
    rw [hend, costFirstYear_eq]
    show (((e : ℕ) : ℤ) - 0) / 2 = ((e / 2 : ℕ) : ℤ)
    omega
  have hhE : costHalfE p x = tlEntry (clampedParams p x) (e / 2) := by
    have hfind : (timelineList (clampedParams p x)).find?
        (fun en => decide (en.1 = costHalfwayYear p x)) =
        some (tlEntry (clampedParams p x) (e / 2)) := by
      unfold timelineList
      have hq : (clampedParams p x).n_years = p.n_years := rfl
      apply find?_map_range_least
      · omega
      · rw [hhw]
        exact decide_eq_true rfl
      · intro j hj
        rw [hhw]
        apply decide_eq_false
        show ¬ ((j : ℕ) : ℤ) = ((e / 2 : ℕ) : ℤ)
        omega
    unfold costHalfE costTimeline
    rw [show (Parameters.run (clampedParams p x)).timeline = timelineList (clampedParams p x)
      from rfl, hfind]
  unfold cost costSlope
  rw [hend, hhE, hhw]
  have h1 : entryTotal (tlEntry (clampedParams p x) e) = totalAt (clampedParams p x) e := rfl
  have h2 : entryTotal (tlEntry (clampedParams p x) (e / 2)) =
      totalAt (clampedParams p x) (e / 2) := rfl
  rw [h1, h2]
  have h3 : (tlEntry (clampedParams p x) e).1 = (e : ℤ) := rfl
  rw [h3, Int.cast_sub, Int.cast_natCast, Int.cast_natCast]

/-- C7: the optimizer cost of a candidate rate `x` is the square of the
slope between the halfway entry and the end entry of the timeline of the
simulation run with the target TFR clamped to `[0, 3]`, where the end
year is the earliest year whose total population is at most
`initial_population / 3` (u64 division) or else the last simulated year,
the first recorded year is 0, and the halfway year is
`(endYear - firstYear) / 2` with integer division. -/
theorem cost_slope_characterization (p : Parameters) (x : ℚ) :
    ∃ e : ℕ, e ≤ p.n_years ∧
      ((totalAt (clampedParams p x) e ≤ p.initial_population / 3 ∧
          ∀ j < e, ¬ totalAt (clampedParams p x) j ≤ p.initial_population / 3) ∨
        ((∀ j ≤ p.n_years, ¬ totalAt (clampedParams p x) j ≤ p.initial_population / 3) ∧
          e = p.n_years)) ∧
      costFirstYear p x = 0 ∧
      cost p x =
        (((totalAt (clampedParams p x) e : ℚ) - (totalAt (clampedParams p x) (e / 2) : ℚ)) /
            ((e : ℚ) - ((e / 2 : ℕ) : ℚ))) *
          (((totalAt (clampedParams p x) e : ℚ) - (totalAt (clampedParams p x) (e / 2) : ℚ)) /
            ((e : ℚ) - ((e / 2 : ℕ) : ℚ))) := by
  by_cases hex : ∃ k, k ≤ p.n_years ∧ totalAt (clampedParams p x) k ≤ p.initial_population / 3
  · refine ⟨Nat.find hex, (Nat.find_spec hex).1, Or.inl ⟨(Nat.find_spec hex).2, ?_⟩,
      costFirstYear_eq p x,
      cost_eq_of_end p x (Nat.find hex) (Nat.find_spec hex).1 (costEnd_eq_of_exists p x hex)⟩
    intro j hj hT
    have hjn : j ≤ p.n_years := by
      have := (Nat.find_spec hex).1
      omega
    exact Nat.find_min hex hj ⟨hjn, hT⟩
  · have hall : ∀ j ≤ p.n_years,
        ¬ totalAt (clampedParams p x) j ≤ p.initial_population / 3 :=
      fun j hj hT => hex ⟨j, hj, hT⟩
    exact ⟨p.n_years, le_refl _, Or.inr ⟨hall, rfl⟩, costFirstYear_eq p x,
      cost_eq_of_end p x p.n_years (le_refl _) (costEnd_eq_of_none p x hall)⟩

end LifeUniverse
